import Mathlib

/-!
# ZMusic MIDS source and OPL/OPN backend adapters: a shallow embedding

This file embeds, in Lean 4, the MIDS proprietary-format decoder
(`src/source/midisources/midisource_mids.cpp`) and the bank-selection and
output-gain logic of the two FM backend adapter factories
(`src/source/mididevices/music_adlmidi_mididevice.cpp`,
`src/source/mididevices/music_opnmidi_mididevice.cpp`) of the ZMusic
repository, and proves or refutes the testable properties stated in the
specification.

Machine integers are modelled as `Nat`/`Int` with explicit `% 2^32`
where 32-bit overflow matters.  Out-of-bounds reads (undefined behaviour in
the C++ source) are totalised with `List.getD _ _ 0`.  Audio samples, which
are C `float`s, are modelled as rationals; per-operation rounding is
abstracted away.
-/

namespace ZMusic

/-- Byte bound used for `uint8_t` truncation. -/
def byteMod (b : Nat) : Nat := b % 256

/-- `LittleLong(GetInt(&data[i]))`: read four bytes at offset `i` as a
little-endian 32-bit value.  (`GetInt`/`LittleLong` live in headers that are
not part of the five source files; per the spec, §4.1, all multi-byte
integers of the container are little-endian and are byte-swapped on read
unconditionally, so their composition is exactly a little-endian read.) -/
def readLE32 (data : List Nat) (i : Nat) : Nat :=
  byteMod (data.getD i 0) +
  byteMod (data.getD (i+1) 0) * 256 +
  byteMod (data.getD (i+2) 0) * 65536 +
  byteMod (data.getD (i+3) 0) * 16777216

/-- State of a `MIDSSong` object: the fields of the class that the five
source files read or write.  `midiBuffer` holds decoded 32-bit words;
`MidsP` is the read cursor, `MaxMidsP` the end bound. -/
structure MIDSSong where
  Division : Nat
  FormatFlags : Nat
  Tempo : Nat
  midiBuffer : List Nat
  MidsP : Nat
  MaxMidsP : Int
  ChannelVolumes : Fin 16 → Nat

/-- Modelled from the spec: the default MIDI tempo (microseconds per quarter
note) established before any embedded tempo event; the member initialisers
live in `midisource.h`, which is not among the source files. -/
def defaultTempo : Nat := 500000

/-- Modelled from the spec: the state of a freshly constructed `MIDSSong`
before the constructor body runs.  The member defaults come from the class
declaration in `midisource.h` (not among the source files); the spec, §4.2
and §7, requires that a song whose constructor bails out is inert, with
`maxPosition < 0` (an "immediately done" state) and no events decoded. -/
def MIDSSong.initial : MIDSSong :=
  { Division := 0
    FormatFlags := 0
    Tempo := defaultTempo
    midiBuffer := []
    MidsP := 0
    MaxMidsP := -1
    ChannelVolumes := fun _ => 0 }

/-- The words of one block payload: `cbBuffer/4` little-endian 32-bit reads
starting at byte offset `off` (the `memcpy` into a `uint32_t` vector
followed by the per-word `LittleLong` pass). -/
def payloadWords (data : List Nat) : Nat → Nat → List Nat
  | _, 0 => []
  | off, n+1 => readLE32 data off :: payloadWords data (off + 4) n

/-- The `while (NumBlocks-- > 0)` loop of the constructor: each block header
supplies `(tkStart, cbBuffer)` at offsets `off`/`off+4`; the payload of
`cbBuffer/4` words is appended and the cursor advances by `8 + cbBuffer`. -/
def readBlocks (data : List Nat) : Nat → Nat → List Nat
  | 0, _ => []
  | n+1, off =>
      let cb := readLE32 data (off + 4)
      payloadWords data (off + 8) (cb / 4) ++ readBlocks data n (off + 8 + cb)

/-- The `"fmt "` check of the constructor: bytes 12..15. -/
def fmtHeaderOk (data : List Nat) : Prop :=
  data.getD 12 0 = 102 ∧ data.getD 13 0 = 109 ∧
  data.getD 14 0 = 116 ∧ data.getD 15 0 = 32

instance (data : List Nat) : Decidable (fmtHeaderOk data) := by
  unfold fmtHeaderOk; infer_instance

/-- The `"data"` check of the constructor: bytes 32..35. -/
def dataHeaderOk (data : List Nat) : Prop :=
  data.getD 32 0 = 100 ∧ data.getD 33 0 = 97 ∧
  data.getD 34 0 = 116 ∧ data.getD 35 0 = 97

instance (data : List Nat) : Decidable (dataHeaderOk data) := by
  unfold dataHeaderOk; infer_instance

/-- `MIDSSong::MIDSSong(const uint8_t*, size_t)`.  Both header checks bail
out with an early `return`, leaving the freshly initialised members; note
that `Division` and `FormatFlags` are assigned before the `"data"` check.
`NumBlocks` is a C `int`: a stored value with the top bit set is negative
and the block loop does not run.  `MaxMidsP = midiBuffer.size() - 1` is
computed in `Int` (an empty buffer gives `-1`, matching the `size_t`
wrap-around truncated to `int`). -/
def mkMIDSSong (data : List Nat) : MIDSSong :=
  if ¬ fmtHeaderOk data then MIDSSong.initial
  else
    let division := readLE32 data 20
    let formatFlags := readLE32 data 28
    if ¬ dataHeaderOk data then
      { MIDSSong.initial with Division := division, FormatFlags := formatFlags }
    else
      let nb := readLE32 data 40
      let numBlocks := if nb < 2147483648 then nb else 0
      let buf := readBlocks data numBlocks 44
      { MIDSSong.initial with
          Division := division
          FormatFlags := formatFlags
          midiBuffer := buf
          MidsP := 0
          MaxMidsP := (buf.length : Int) - 1 }

/-- `MIDSSong::DoInitialSetup`: set the 16 starting channel volumes. -/
def doInitialSetup (s : MIDSSong) : MIDSSong :=
  { s with ChannelVolumes := fun _ => 100 }

/-- `MIDSSong::CheckDone`: `MidsP >= MaxMidsP`. -/
def checkDone (s : MIDSSong) : Bool :=
  decide ((s.MidsP : Int) ≥ s.MaxMidsP)

/-- `MEVENT_EVENTTYPE`: the top byte of an event word.  Modelled from the
spec, §4.1 (the macro lives in a header that is not among the source files):
a triplet word packs `time | (type<<24) | length`. -/
def MEVENT_EVENTTYPE (w : Nat) : Nat := w / 16777216 % 256

/-- `MEVENT_EVENTPARM`: the low 24 bits of an event word.  Modelled from the
spec, §4.1, like `MEVENT_EVENTTYPE`. -/
def MEVENT_EVENTPARM (w : Nat) : Nat := w % 16777216

/-- `MEVENT_TEMPO`: the event-type code of a tempo meta-event.  Modelled
from the spec (the constant lives in a header that is not among the source
files); its concrete value is the standard MIDI-stream value 1 and nothing
below depends on it beyond being a fixed code. -/
def MEVENT_TEMPO : Nat := 1

/-- `MIDSSong::ProcessInitialTempoEvents`: inspect
`midiBuffer[FormatFlags ? 1 : 2]` and, when it is a tempo meta-event, adopt
its parameter as the running tempo (`SetTempo` of the base class is not
among the source files; modelled from the spec as adopting the parameter as
the running tempo). -/
def processInitialTempoEvents (s : MIDSSong) : MIDSSong :=
  let w := s.midiBuffer.getD (if s.FormatFlags ≠ 0 then 1 else 2) 0
  if MEVENT_EVENTTYPE w = MEVENT_TEMPO then
    { s with Tempo := MEVENT_EVENTPARM w }
  else s

/-- `MIDSSong::DoRestart`: rewind the cursor and re-run the initial-tempo
pass. -/
def doRestart (s : MIDSSong) : MIDSSong :=
  processInitialTempoEvents { s with MidsP := 0 }

/-- Modelled from the spec: the framework (not among the source files)
performs a restart by running `DoRestart` together with the initial-setup
pass `DoInitialSetup`. -/
def restart (s : MIDSSong) : MIDSSong :=
  doInitialSetup (doRestart s)

/-- The `while` loop of `MIDSSong::MakeEvents`.  `cap` is the number of
32-bit destination words still below `max_event_p` (the pointer condition
`events < max_event_p` is `0 < cap`, and `events += 3` is `cap := cap - 3`,
saturating exactly as the pointer comparison does).  `p` is `MidsP`, `tot`
is `tot_time`, a `uint32_t` accumulated modulo `2^32`.  The returned pair is
(the words written to the destination, the final `MidsP`).

`fuel` only bounds the iteration count; `makeEvents` passes `cap` for it,
which suffices because every iteration removes three capacity words, so the
loop iterates at most `⌈cap/3⌉ ≤ cap` times, and when `fuel` and `cap` run
out together the loop has already stopped on the pointer condition. -/
def makeEventsLoop (buf : List Nat) (flags : Nat) (maxM : Int) (maxTicks : Nat) :
    Nat → Nat → Nat → Nat → List Nat × Nat
  | 0, _, p, _ => ([], p)
  | _+1, 0, p, _ => ([], p)
  | fuel+1, cap+1, p, tot =>
      if tot ≤ maxTicks then
        let time := buf.getD p 0
        let w1 := if flags ≠ 0 then 0 else buf.getD (p + 1) 0
        let eventIdx := if flags ≠ 0 then p + 1 else p + 2
        let w2 := buf.getD eventIdx 0
        let p3 := eventIdx + 1
        let tot2 := (tot + time) % 4294967296
        if (p3 : Int) ≥ maxM then ([time, w1, w2], p3)
        else
          let r := makeEventsLoop buf flags maxM maxTicks fuel (cap + 1 - 3) p3 tot2
          (time :: w1 :: w2 :: r.1, r.2)
      else ([], p)

/-- `MIDSSong::MakeEvents`.  `cap` is the destination capacity in 32-bit
words (`max_event_p - events` at entry), `maxTime` the elapsed-time budget
(`max_time`, a `uint32_t`).  The budget is first converted to source ticks
by `max_time * Division / Tempo` in unsigned 32-bit arithmetic: the product
wraps modulo `2^32` and the division truncates.  Returns the emitted
destination words together with the updated song state. -/
def makeEvents (s : MIDSSong) (cap maxTime : Nat) : List Nat × MIDSSong :=
  let maxTicks := maxTime * s.Division % 4294967296 / s.Tempo
  let r := makeEventsLoop s.midiBuffer s.FormatFlags s.MaxMidsP maxTicks cap cap s.MidsP 0
  (r.1, { s with MidsP := r.2 })

/-! ## Backend adapter factories

Bank selection in `CreateADLMIDIDevice` / `CreateOPNMIDIDevice`.  C strings
are modelled as `List Char`; a null `const char*` as `Option` `none`.  The
host callback `musicCallbacks.PathForSoundfont` (declared in
`zmusic_internal.h`, not among the source files) is modelled from the spec,
§6: `resolve(name, kind) -> path | null`, supplied by the host; an
uninstalled callback is `none`, and a callback returning null is an inner
`none`. -/

/-- The fields of `ADLConfig` that `CreateADLMIDIDevice` reads or writes.
The remaining fields (emulator id, chip count, ...) are copied through
unchanged and never inspected by the factory. -/
structure ADLConfig where
  adl_bank : Int
  adl_use_custom_bank : Bool
  adl_custom_bank : List Char
  deriving DecidableEq

/-- The fields of `OpnConfig` that `CreateOPNMIDIDevice` reads or writes. -/
structure OpnConfig where
  opn_use_custom_bank : Bool
  opn_custom_bank : List Char
  deriving DecidableEq

/-- The digit test of the ADL factory: `*bank >= '0' && *bank <= '9'` on
the first character. -/
def firstCharIsDigit (b : List Char) : Bool :=
  match b with
  | [] => false
  | c :: _ => decide ('0' ≤ c ∧ c ≤ '9')

/-- `(int)strtoll(bank, nullptr, 10)` on a string whose first character is
a decimal digit (the only case the factory reaches it): the value of the
leading run of digits, saturated at `LLONG_MAX` by `strtoll`, then wrapped
to 32-bit two's complement by the `int` cast. -/
def strtoll10 (b : List Char) : Int :=
  let digits := b.takeWhile fun c => decide ('0' ≤ c ∧ c ≤ '9')
  let v : Nat := digits.foldl (fun acc c => acc * 10 + (c.toNat - 48)) 0
  let v64 : Int := min (v : Int) (2 ^ 63 - 1)
  (v64 + 2 ^ 31) % 2 ^ 32 - 2 ^ 31

/-- The `bank` selection shared by both factories:
`Args && *Args ? Args : global.use_custom_bank ? global.custom_bank : nullptr`,
followed by the `bank && *bank` guard.  Returns the non-empty bank string,
if any. -/
def selectBank (args : Option (List Char)) (useCustom : Bool)
    (customBank : List Char) : Option (List Char) :=
  let bank : Option (List Char) :=
    match args with
    | some a => if a ≠ [] then some a else if useCustom then some customBank else none
    | none => if useCustom then some customBank else none
  match bank with
  | some b => if b ≠ [] then some b else none
  | none => none

/-- `CreateADLMIDIDevice`: the per-instance configuration it builds from the
global `adlConfig`, the `Args` string and the host resolver callback
(`resolver bank` models `musicCallbacks.PathForSoundfont(bank, SF_WOPL)`).
A bank whose first character is a digit is parsed as a built-in index and
custom banks are disabled; otherwise the resolver (or, when none is
installed, the bank string itself) supplies the custom bank path. -/
def createADLMIDIDeviceConfig (globalCfg : ADLConfig)
    (resolver : Option (List Char → Option (List Char)))
    (args : Option (List Char)) : ADLConfig :=
  match selectBank args globalCfg.adl_use_custom_bank globalCfg.adl_custom_bank with
  | none => globalCfg
  | some b =>
      if firstCharIsDigit b then
        { globalCfg with adl_bank := strtoll10 b, adl_use_custom_bank := false }
      else
        let info : Option (List Char) :=
          match resolver with
          | some f => f b
          | none => some b
        match info with
        | none => { globalCfg with adl_custom_bank := [], adl_use_custom_bank := false }
        | some i => { globalCfg with adl_custom_bank := i, adl_use_custom_bank := true }

/-- `CreateOPNMIDIDevice`: the per-instance configuration it builds.
Unlike the ADL factory, there is no digit test: every non-empty bank string
goes to the resolver (or, when none is installed, is used as the custom
bank path directly). -/
def createOPNMIDIDeviceConfig (globalCfg : OpnConfig)
    (resolver : Option (List Char → Option (List Char)))
    (args : Option (List Char)) : OpnConfig :=
  match selectBank args globalCfg.opn_use_custom_bank globalCfg.opn_custom_bank with
  | none => globalCfg
  | some b =>
      let info : Option (List Char) :=
        match resolver with
        | some f => f b
        | none => some b
      match info with
      | none => { globalCfg with opn_custom_bank := [], opn_use_custom_bank := false }
      | some i => { globalCfg with opn_custom_bank := i, opn_use_custom_bank := true }

/-! ## Backend adapter output gain -/

/-- The `ADLMIDI_VolumeModel` selection the ADL device constructor switches
on (`adl_getVolumeRangeModel`).  The enum lives in the external `adlmidi.h`;
only the constructor's case labels matter here, so the models are named
constructors, with `Other` standing for every remaining enum value (the
`default` label). -/
inductive ADLVolumeModel
  | Generic | NineX | NineXGenericFM
  | HMI | HMIOld
  | DMX | DMXFixed | Apogee | ApogeeFixed | AIL
  | NativeOPL3
  | Other
  deriving DecidableEq

/-- The `OutputGainFactor` the ADL device constructor assigns for each
volume model (the C `float` constants `2.0f`, `2.5f`, `3.5f`, `3.8f`,
modelled as exact rationals).  The `default` label shares the `3.5f` arm. -/
def adlOutputGainFactor : ADLVolumeModel → ℚ
  | .Generic | .NineX | .NineXGenericFM => 2
  | .HMI | .HMIOld => 5/2
  | .NativeOPL3 => 19/5
  | .DMX | .DMXFixed | .Apogee | .ApogeeFixed | .AIL | .Other => 7/2

/-- The scaling loop of `ADLMIDIDevice::ComputeOutput`:
`for (i = 0; i < result; i++) buffer[i] *= OutputGainFactor`, on a buffer
modelled as a list of samples. -/
def scaleFirstN (gain : ℚ) : Nat → List ℚ → List ℚ
  | 0, xs => xs
  | _+1, [] => []
  | n+1, x :: xs => x * gain :: scaleFirstN gain n xs

/-- `ADLMIDIDevice::ComputeOutput`: `adl_generateFormat` writes the engine's
samples (`engineOut`, whose length is the returned `result`) into the start
of the buffer, leaving any remainder (`rest`) untouched; the first `result`
samples are then multiplied by `OutputGainFactor`. -/
def adlComputeOutput (gain : ℚ) (engineOut rest : List ℚ) : List ℚ :=
  scaleFirstN gain engineOut.length (engineOut ++ rest)

/-- `OPNMIDIDevice::ComputeOutput`: `opn2_generateFormat` writes the
engine's samples into the buffer and the function returns — no gain is
applied to any sample. -/
def opnComputeOutput (engineOut rest : List ℚ) : List ℚ :=
  engineOut ++ rest

/-! ## Concrete fixtures -/

/-- A valid MIDS container: `"fmt "` at 12, division 1 at 20, format flags 0
at 28, `"data"` at 32, one block (count at 40) whose header at 44 carries
`tkStart = 0`, `cbBuffer = 24`, followed by 24 zero payload bytes — six
zero event words, i.e. two complete (time, stream-id, event) triplets. -/
def sampleContainer : List Nat :=
  [0,0,0,0,0,0,0,0,0,0,0,0,
   102,109,116,32,
   0,0,0,0,
   1,0,0,0,
   0,0,0,0,
   0,0,0,0,
   100,97,116,97,
   0,0,0,0,
   1,0,0,0,
   0,0,0,0,
   24,0,0,0,
   0,0,0,0,0,0,0,0,0,0,0,0,0,0,0,0,0,0,0,0,0,0,0,0]

/-- A song state in the implicit-timing encoding (`FormatFlags = 1`,
two-word events): three events with delta times 3, 0, 0 and event words
10, 11, 12; `Division = Tempo = 1` so a time budget converts to the same
number of ticks. -/
def sampleSongSplit : MIDSSong :=
  { Division := 1, FormatFlags := 1, Tempo := 1,
    midiBuffer := [3, 10, 0, 11, 0, 12], MidsP := 0, MaxMidsP := 5,
    ChannelVolumes := fun _ => 100 }

/-- A song state in the implicit-timing encoding whose first event has the
nonzero delta time 7 and event word 9. -/
def sampleSongImplicit : MIDSSong :=
  { Division := 1, FormatFlags := 1, Tempo := 1,
    midiBuffer := [7, 9, 0, 9], MidsP := 0, MaxMidsP := 3,
    ChannelVolumes := fun _ => 100 }

/-- A song state in the explicit-timing encoding (`FormatFlags = 0`,
three-word events) whose words 0 and 1 are tempo meta-events (type byte 1,
parameter 111) while word 2 is not a tempo event. -/
def sampleSongTempo : MIDSSong :=
  { Division := 1, FormatFlags := 0, Tempo := 500000,
    midiBuffer := [16777216 + 111, 16777216 + 111, 5], MidsP := 0, MaxMidsP := 2,
    ChannelVolumes := fun _ => 100 }

/-- The global `adlConfig` in its zero-initialised state. -/
def adlConfigDefault : ADLConfig :=
  { adl_bank := 14, adl_use_custom_bank := false, adl_custom_bank := [] }

/-- The global `opnConfig` in its zero-initialised state. -/
def opnConfigDefault : OpnConfig :=
  { opn_use_custom_bank := false, opn_custom_bank := [] }

/-! ## Helper lemmas -/

/-- One unrolling of the `MakeEvents` loop with positive fuel and
capacity. -/
theorem makeEventsLoop_step (buf : List Nat) (flags : Nat) (maxM : Int)
    (maxTicks fuel cap p tot : Nat) :
    makeEventsLoop buf flags maxM maxTicks (fuel + 1) (cap + 1) p tot =
      if tot ≤ maxTicks then
        let time := buf.getD p 0
        let w1 := if flags ≠ 0 then 0 else buf.getD (p + 1) 0
        let eventIdx := if flags ≠ 0 then p + 1 else p + 2
        let w2 := buf.getD eventIdx 0
        if ((eventIdx + 1 : Nat) : Int) ≥ maxM then ([time, w1, w2], eventIdx + 1)
        else
          let r := makeEventsLoop buf flags maxM maxTicks fuel (cap + 1 - 3)
                     (eventIdx + 1) ((tot + time) % 4294967296)
          (time :: w1 :: w2 :: r.1, r.2)
      else ([], p) := rfl

/-- The `MakeEvents` loop never moves the cursor backwards. -/
theorem makeEventsLoop_cursor_mono (buf : List Nat) (flags : Nat) (maxM : Int)
    (maxTicks : Nat) :
    ∀ (fuel cap p tot : Nat),
      p ≤ (makeEventsLoop buf flags maxM maxTicks fuel cap p tot).2 := by
  intro fuel
  induction fuel with
  | zero => intro cap p tot; exact le_refl p
  | succ n ih =>
    intro cap p tot
    match cap with
    | 0 => exact le_refl p
    | cap' + 1 =>
      simp only [makeEventsLoop_step]
      by_cases ht : tot ≤ maxTicks
      · rw [if_pos ht]
        by_cases hend : (((if flags ≠ 0 then p + 1 else p + 2) + 1 : Nat) : Int) ≥ maxM
        · rw [if_pos hend]
          dsimp only
          split <;> omega
        · rw [if_neg hend]
          dsimp only
          refine le_trans ?_ (ih _ _ _)
          split <;> omega
      · rw [if_neg ht]

/-- Starting at or before `maxM`, the `MakeEvents` loop leaves the cursor at
most one full (three-word) event past `maxM`. -/
theorem makeEventsLoop_cursor_le (buf : List Nat) (flags : Nat) (maxM : Int)
    (maxTicks : Nat) :
    ∀ (fuel cap p tot : Nat), (p : Int) ≤ maxM →
      ((makeEventsLoop buf flags maxM maxTicks fuel cap p tot).2 : Int) ≤ maxM + 3 := by
  intro fuel
  induction fuel with
  | zero => intro cap p tot h; exact le_trans h (by omega)
  | succ n ih =>
    intro cap p tot h
    match cap with
    | 0 => exact le_trans h (by omega)
    | cap' + 1 =>
      simp only [makeEventsLoop_step]
      by_cases ht : tot ≤ maxTicks
      · rw [if_pos ht]
        by_cases hend : (((if flags ≠ 0 then p + 1 else p + 2) + 1 : Nat) : Int) ≥ maxM
        · rw [if_pos hend]
          dsimp only
          revert hend
          split <;> (intro hend; push_cast at hend ⊢; omega)
        · rw [if_neg hend]
          dsimp only
          refine ih _ _ _ ?_
          revert hend
          split <;> (intro hend; push_cast at hend ⊢; omega)
      · rw [if_neg ht]
        exact le_trans h (by omega)

/-- Scaling the first `xs.length` entries of `xs ++ ys` multiplies exactly
the entries of `xs` by the gain and leaves `ys` untouched. -/
theorem scaleFirst_append (g : ℚ) (xs ys : List ℚ) :
    scaleFirstN g xs.length (xs ++ ys) = xs.map (fun x => x * g) ++ ys := by
  induction xs with
  | nil => simp [scaleFirstN]
  | cons x xs ih => simp [scaleFirstN, ih]

/-! ## Claim C1 -/

/-- C1, counterexample: on the song built from the valid container
`sampleContainer` (both header checks pass; `MaxMidsP = 5`), a single
`MakeEvents` call with capacity 100 and time budget 0 advances the read
cursor to 6, strictly past `MaxMidsP` — refuting the claim that no call
advances the cursor past `maxPosition`. -/
theorem C1_cursor_past_max_counterexample :
    fmtHeaderOk sampleContainer ∧ dataHeaderOk sampleContainer ∧
    (mkMIDSSong sampleContainer).MaxMidsP = 5 ∧
    ((makeEvents (mkMIDSSong sampleContainer) 100 0).2.MidsP : Int) = 6 := by
  refine ⟨by decide, by decide, by decide, by decide⟩

/-- C1, amended: `MakeEvents`, entered with the cursor at or before
`MaxMidsP`, leaves the cursor at most one full (three-word) event past
`MaxMidsP` (it can overshoot it by up to 3 words, but no further), and the
completion predicate `CheckDone` is true exactly when the cursor has
reached or passed `MaxMidsP`. -/
theorem C1_cursor_bound_amended (s : MIDSSong) (cap t : Nat)
    (h : (s.MidsP : Int) ≤ s.MaxMidsP) :
    ((makeEvents s cap t).2.MidsP : Int) ≤ s.MaxMidsP + 3 ∧
    (∀ s' : MIDSSong, checkDone s' = true ↔ (s'.MidsP : Int) ≥ s'.MaxMidsP) := by
  constructor
  · exact makeEventsLoop_cursor_le s.midiBuffer s.FormatFlags s.MaxMidsP _ cap cap
      s.MidsP 0 h
  · intro s'
    simp [checkDone]

/-- C1, witness for the amended theorem at the container-built song. -/
theorem C1_cursor_bound_amended_witness :
    ((makeEvents (mkMIDSSong sampleContainer) 100 0).2.MidsP : Int) ≤
      (mkMIDSSong sampleContainer).MaxMidsP + 3 :=
  (C1_cursor_bound_amended (mkMIDSSong sampleContainer) 100 0 (by decide)).1

/-! ## Claim C2 -/

/-- C2, counterexample: on `sampleSongSplit` (with `Division = Tempo = 1`,
so a budget of `b` converts to exactly `b` ticks), one `MakeEvents` call
with budget 2 leaves the cursor at 2, while two consecutive calls with
budgets 1 and 1 (summing to 2, each with ample capacity) leave the cursor
at 6 — refuting the claim that budgets summing to B consume the same source
and leave the cursor at the same position as a single call with budget B. -/
theorem C2_split_budget_counterexample :
    (makeEvents sampleSongSplit 100 2).2.MidsP = 2 ∧
    (makeEvents (makeEvents sampleSongSplit 100 1).2 100 1).2.MidsP = 6 := by
  refine ⟨by decide, by decide⟩

/-- C2, amended: the tick conversion in `MakeEvents` is exact integer
arithmetic — the call depends on its time budget only through the truncated
integer quotient `max_time * Division / Tempo` (the product taken in
unsigned 32-bit arithmetic), so two budgets with the same quotient emit the
same events and leave the same state; but splitting a budget across calls
may consume different source ticks and leave the cursor elsewhere than a
single call with the summed budget, since each call discards its budget
remainder and consumes through the first event exceeding its own budget. -/
theorem C2_budget_exact_integer_amended (s : MIDSSong) (cap t₁ t₂ : Nat)
    (h : t₁ * s.Division % 4294967296 / s.Tempo =
         t₂ * s.Division % 4294967296 / s.Tempo) :
    makeEvents s cap t₁ = makeEvents s cap t₂ := by
  simp only [makeEvents, h]

/-- C2, witness: budgets 2 and 2 + 2³² convert to the same tick count on
`sampleSongSplit` and produce identical calls. -/
theorem C2_budget_exact_integer_amended_witness :
    makeEvents sampleSongSplit 100 2 = makeEvents sampleSongSplit 100 4294967298 :=
  C2_budget_exact_integer_amended sampleSongSplit 100 2 4294967298 (by decide)

/-! ## Claim C3 -/

/-- C3, counterexample: on `sampleSongImplicit` (`FormatFlags = 1`, first
source event `(time 7, event 9)`), `MakeEvents` emits the triplet
`[7, 0, 9]`: the emitted time word is 7, copied from the source, not 0 —
refuting the claim that under the implicit-timing flag the per-event time
field is the omitted one and is emitted as 0.  (It is the middle, stream-id
word that is emitted as 0.) -/
theorem C3_time_word_counterexample :
    sampleSongImplicit.FormatFlags ≠ 0 ∧
    (makeEvents sampleSongImplicit 3 0).1 = [7, 0, 9] ∧
    (makeEvents sampleSongImplicit 3 0).1.getD 0 0 ≠ 0 := by
  refine ⟨by decide, by decide, by decide⟩

/-- C3, amended: when `FormatFlags` is nonzero each source event occupies
two words (time, event); `MakeEvents` copies the time word from the source,
emits 0 for the middle (stream-id) word of the destination triplet, and
copies the event word; when `FormatFlags` is zero all three words of the
triplet are copied from the source.  Stated for the first triplet any call
with room emits. -/
theorem C3_triplet_layout_amended (s : MIDSSong) (cap t : Nat) (h : 0 < cap) :
    (makeEvents s cap t).1.take 3 =
      [s.midiBuffer.getD s.MidsP 0,
       if s.FormatFlags ≠ 0 then 0 else s.midiBuffer.getD (s.MidsP + 1) 0,
       s.midiBuffer.getD (if s.FormatFlags ≠ 0 then s.MidsP + 1 else s.MidsP + 2) 0] := by
  obtain ⟨c, rfl⟩ : ∃ c, cap = c + 1 := ⟨cap - 1, by omega⟩
  simp only [makeEvents, makeEventsLoop_step]
  rw [if_pos (Nat.zero_le _)]
  by_cases hend : (((if s.FormatFlags ≠ 0 then s.MidsP + 1 else s.MidsP + 2) + 1 : Nat) : Int) ≥
      s.MaxMidsP
  · rw [if_pos hend]
    rfl
  · rw [if_neg hend]
    rfl

/-- C3, witness at the concrete implicit-timing song. -/
theorem C3_triplet_layout_amended_witness :
    (makeEvents sampleSongImplicit 3 0).1.take 3 =
      [sampleSongImplicit.midiBuffer.getD sampleSongImplicit.MidsP 0,
       if sampleSongImplicit.FormatFlags ≠ 0 then 0
         else sampleSongImplicit.midiBuffer.getD (sampleSongImplicit.MidsP + 1) 0,
       sampleSongImplicit.midiBuffer.getD
         (if sampleSongImplicit.FormatFlags ≠ 0 then sampleSongImplicit.MidsP + 1
           else sampleSongImplicit.MidsP + 2) 0] :=
  C3_triplet_layout_amended sampleSongImplicit 3 0 (by decide)

/-! ## Claim C4 -/

/-- C4, counterexample: `sampleSongTempo` has `FormatFlags = 0` and tempo
meta-events (type 1, parameter 111) in words 0 and 1 of the decoded buffer,
yet `ProcessInitialTempoEvents` leaves the tempo unchanged at 500000,
because it inspects word 2 — refuting the claim that the extraction
inspects the first or second word. -/
theorem C4_inspected_word_counterexample :
    MEVENT_EVENTTYPE (sampleSongTempo.midiBuffer.getD 0 0) = MEVENT_TEMPO ∧
    MEVENT_EVENTTYPE (sampleSongTempo.midiBuffer.getD 1 0) = MEVENT_TEMPO ∧
    MEVENT_EVENTPARM (sampleSongTempo.midiBuffer.getD 0 0) = 111 ∧
    (processInitialTempoEvents sampleSongTempo).Tempo = 500000 := by
  refine ⟨by decide, by decide, by decide, by decide⟩

/-- C4, amended: the initial tempo extraction inspects the event word of
the first event — word index 1 when `formatFlags` is nonzero (two-word
events), else word index 2 (three-word events) — and adopts its parameter
as the running tempo exactly when it is a tempo meta-event; `DoRestart`
rewinds the cursor and re-runs exactly this extraction (the spec says the
framework, which is outside the given sources, also runs it at initial
load). -/
theorem C4_tempo_extraction_amended (s : MIDSSong) :
    (processInitialTempoEvents s).Tempo =
      (if MEVENT_EVENTTYPE (s.midiBuffer.getD (if s.FormatFlags ≠ 0 then 1 else 2) 0) =
          MEVENT_TEMPO
       then MEVENT_EVENTPARM (s.midiBuffer.getD (if s.FormatFlags ≠ 0 then 1 else 2) 0)
       else s.Tempo) ∧
    doRestart s = processInitialTempoEvents { s with MidsP := 0 } := by
  refine ⟨?_, rfl⟩
  simp only [processInitialTempoEvents]
  split <;> split <;> rfl

/-! ## Claim C5 -/

/-- C5, confirmed: a container failing the `"fmt "` check at offset 12 or
the `"data"` check at offset 32 yields an inert, empty song: no events
decoded, `MaxMidsP < 0`, cursor at 0, and the song reports itself done
immediately.  The constructor is a total function here — no exception is
modelled because none is thrown on this path. -/
theorem C5_invalid_header_inert (data : List Nat)
    (h : ¬ fmtHeaderOk data ∨ ¬ dataHeaderOk data) :
    (mkMIDSSong data).midiBuffer = [] ∧
    (mkMIDSSong data).MaxMidsP < 0 ∧
    (mkMIDSSong data).MidsP = 0 ∧
    checkDone (mkMIDSSong data) = true := by
  unfold mkMIDSSong
  by_cases h1 : fmtHeaderOk data
  · by_cases h2 : dataHeaderOk data
    · exact absurd h (by simp [h1, h2])
    · simp only [h1, not_true_eq_false, if_false, h2, not_false_eq_true, if_true]
      exact ⟨rfl, show (-1 : Int) < 0 by norm_num, rfl, rfl⟩
  · simp only [h1, not_false_eq_true, if_true]
    exact ⟨rfl, show (-1 : Int) < 0 by norm_num, rfl, rfl⟩

/-- C5, witness at the empty buffer (every header check fails). -/
theorem C5_invalid_header_inert_witness :
    (mkMIDSSong []).midiBuffer = [] ∧
    (mkMIDSSong []).MaxMidsP < 0 ∧
    (mkMIDSSong []).MidsP = 0 ∧
    checkDone (mkMIDSSong []) = true :=
  C5_invalid_header_inert [] (Or.inl (by decide))

/-! ## Claim C6 -/

/-- C6, confirmed: a restart (`DoRestart` composed with the initial-setup
pass, as the framework performs it) rewinds the cursor to 0, sets all 16
channel volumes to 100, and re-seeds the tempo from the inspected initial
tempo event when one is present, leaving the running (default) tempo
untouched otherwise. -/
theorem C6_restart_resets (s : MIDSSong) :
    (restart s).MidsP = 0 ∧
    (∀ i : Fin 16, (restart s).ChannelVolumes i = 100) ∧
    (restart s).Tempo =
      (if MEVENT_EVENTTYPE (s.midiBuffer.getD (if s.FormatFlags ≠ 0 then 1 else 2) 0) =
          MEVENT_TEMPO
       then MEVENT_EVENTPARM (s.midiBuffer.getD (if s.FormatFlags ≠ 0 then 1 else 2) 0)
       else s.Tempo) := by
  refine ⟨?_, fun i => rfl, ?_⟩
  · simp only [restart, doInitialSetup, doRestart, processInitialTempoEvents]
    split <;> split <;> rfl
  · simp only [restart, doInitialSetup, doRestart, processInitialTempoEvents]
    split <;> split <;> rfl

/-! ## Claim C7 -/

/-- C7, counterexample: the OPN factory has no numeric test.  With the
purely numeric bank argument `"2"` it enables custom-bank loading: with no
resolver installed it adopts `"2"` itself as the custom bank file path, and
with a resolver installed it passes `"2"` to the resolver (here one
returning `"X"`) — refuting the claim that in every factory a numeric bank
argument disables custom-bank lookup and is never treated as a filename. -/
theorem C7_opn_numeric_bank_counterexample :
    firstCharIsDigit ['2'] = true ∧
    (createOPNMIDIDeviceConfig opnConfigDefault none (some ['2'])).opn_use_custom_bank
      = true ∧
    (createOPNMIDIDeviceConfig opnConfigDefault none (some ['2'])).opn_custom_bank
      = ['2'] ∧
    (createOPNMIDIDeviceConfig opnConfigDefault (some fun _ => some ['X'])
        (some ['2'])).opn_custom_bank = ['X'] := by
  refine ⟨by decide, by decide, by decide, by decide⟩

/-- C7, amended: only the ADL factory applies the numeric rule — a bank
argument whose first character is a decimal digit (in particular every
purely numeric argument) is parsed as a built-in bank index and disables
custom-bank lookup, whatever resolver is installed; the OPN factory treats
every non-empty bank argument, numeric or not, as a custom-bank identifier
(shown with no resolver installed: it adopts the string as the bank
path). -/
theorem C7_adl_numeric_bank_amended (g : ADLConfig)
    (resolver : Option (List Char → Option (List Char))) (a : List Char)
    (ha : a ≠ []) (hd : firstCharIsDigit a = true) :
    createADLMIDIDeviceConfig g resolver (some a) =
      { g with adl_bank := strtoll10 a, adl_use_custom_bank := false } ∧
    ∀ g' : OpnConfig, createOPNMIDIDeviceConfig g' none (some a) =
      { g' with opn_custom_bank := a, opn_use_custom_bank := true } := by
  constructor
  · simp [createADLMIDIDeviceConfig, selectBank, ha, hd]
  · intro g'
    simp [createOPNMIDIDeviceConfig, selectBank, ha]

/-- C7, witness for the amended theorem at the bank argument `"25"`. -/
theorem C7_adl_numeric_bank_amended_witness :
    createADLMIDIDeviceConfig adlConfigDefault none (some ['2', '5']) =
      { adlConfigDefault with
          adl_bank := strtoll10 ['2', '5']
          adl_use_custom_bank := false } :=
  (C7_adl_numeric_bank_amended adlConfigDefault none ['2', '5']
    (by decide) (by decide)).1

/-! ## Claim C8 -/

/-- C8, counterexample: the OPN render call returns the engine output
unscaled — on the one-sample engine output `[1]` it returns `[1]`, which
differs from `1` scaled by any of the documented per-volume-model gain
constants (2.0, 2.5, 3.5, 3.8) — refuting the claim that every backend
adapter multiplies every sample by the documented per-model constant. -/
theorem C8_opn_no_gain_counterexample :
    opnComputeOutput [1] [] = [1] ∧
    opnComputeOutput [1] [] ≠ [1 * adlOutputGainFactor ADLVolumeModel.Generic] ∧
    opnComputeOutput [1] [] ≠ [1 * adlOutputGainFactor ADLVolumeModel.HMI] ∧
    opnComputeOutput [1] [] ≠ [1 * adlOutputGainFactor ADLVolumeModel.DMX] ∧
    opnComputeOutput [1] [] ≠ [1 * adlOutputGainFactor ADLVolumeModel.NativeOPL3] := by
  refine ⟨rfl, ?_, ?_, ?_, ?_⟩ <;> norm_num [opnComputeOutput, adlOutputGainFactor]

/-- C8, amended: only the ADL adapter applies gain: its render call
multiplies exactly the samples the engine wrote by the fixed
per-volume-model constant (2.0 for the Generic/9X models, 2.5 for the HMI
models, 3.5 for the DMX/Apogee/AIL and remaining models, 3.8 for
NativeOPL3), leaving any unwritten tail untouched; the OPN adapter applies
no gain and returns the engine output unchanged. -/
theorem C8_gain_application_amended (m : ADLVolumeModel) (engineOut rest : List ℚ) :
    adlComputeOutput (adlOutputGainFactor m) engineOut rest =
      engineOut.map (fun x => x * adlOutputGainFactor m) ++ rest ∧
    opnComputeOutput engineOut rest = engineOut ++ rest ∧
    adlOutputGainFactor ADLVolumeModel.Generic = 2 ∧
    adlOutputGainFactor ADLVolumeModel.HMI = 5 / 2 ∧
    adlOutputGainFactor ADLVolumeModel.DMX = 7 / 2 ∧
    adlOutputGainFactor ADLVolumeModel.NativeOPL3 = 19 / 5 :=
  ⟨scaleFirst_append _ _ _, rfl, rfl, rfl, rfl, rfl⟩

/-! ## Claim C9 -/

/-- C9, confirmed: whenever the destination has room (`0 < cap`, i.e.
`events < max_event_p`), `MakeEvents` copies at least one full triplet and
strictly advances both the destination position and the read cursor, even
with a time budget of 0: the budget comparison `tot_time <= max_time` is
checked with `tot_time = 0` first and cannot stop the first iteration. -/
theorem C9_always_emits_one_event (s : MIDSSong) (cap t : Nat) (h : 0 < cap) :
    3 ≤ (makeEvents s cap t).1.length ∧
    s.MidsP < (makeEvents s cap t).2.MidsP := by
  obtain ⟨c, rfl⟩ : ∃ c, cap = c + 1 := ⟨cap - 1, by omega⟩
  simp only [makeEvents, makeEventsLoop_step]
  rw [if_pos (Nat.zero_le _)]
  by_cases hend : (((if s.FormatFlags ≠ 0 then s.MidsP + 1 else s.MidsP + 2) + 1 : Nat) : Int) ≥
      s.MaxMidsP
  · rw [if_pos hend]
    refine ⟨by simp, ?_⟩
    dsimp only
    split <;> omega
  · rw [if_neg hend]
    refine ⟨by simp, ?_⟩
    dsimp only
    refine lt_of_lt_of_le ?_ (makeEventsLoop_cursor_mono _ _ _ _ _ _ _ _)
    split <;> omega

/-- C9, witness: capacity one word, budget zero, on a concrete song. -/
theorem C9_always_emits_one_event_witness :
    3 ≤ (makeEvents sampleSongSplit 1 0).1.length ∧
    sampleSongSplit.MidsP < (makeEvents sampleSongSplit 1 0).2.MidsP :=
  C9_always_emits_one_event sampleSongSplit 1 0 (by decide)

/-! ## Claim C10 -/

/-- C10, confirmed: with no `PathForSoundfont` resolver installed and a
non-empty bank name (whose first character is not a digit, as the ADL
factory requires), both factories adopt the bank string itself as the
custom bank file path and enable custom-bank loading in the per-instance
configuration — the name is not rejected for lack of a resolver. -/
theorem C10_no_resolver_adopts_bank_name (g : ADLConfig) (g' : OpnConfig)
    (b : List Char) (hb : b ≠ []) (hd : firstCharIsDigit b = false) :
    (createADLMIDIDeviceConfig g none (some b)).adl_custom_bank = b ∧
    (createADLMIDIDeviceConfig g none (some b)).adl_use_custom_bank = true ∧
    (createOPNMIDIDeviceConfig g' none (some b)).opn_custom_bank = b ∧
    (createOPNMIDIDeviceConfig g' none (some b)).opn_use_custom_bank = true := by
  refine ⟨?_, ?_, ?_, ?_⟩ <;>
    simp [createADLMIDIDeviceConfig, createOPNMIDIDeviceConfig, selectBank, hb, hd]

/-- C10, witness at the bank name `"a"` with default global configs. -/
theorem C10_no_resolver_adopts_bank_name_witness :
    (createADLMIDIDeviceConfig adlConfigDefault none (some ['a'])).adl_custom_bank
        = ['a'] ∧
    (createADLMIDIDeviceConfig adlConfigDefault none (some ['a'])).adl_use_custom_bank
        = true ∧
    (createOPNMIDIDeviceConfig opnConfigDefault none (some ['a'])).opn_custom_bank
        = ['a'] ∧
    (createOPNMIDIDeviceConfig opnConfigDefault none (some ['a'])).opn_use_custom_bank
        = true :=
  C10_no_resolver_adopts_bank_name adlConfigDefault opnConfigDefault ['a']
    (by decide) (by decide)

end ZMusic
